import Mathlib

/-!
Shallow embedding of the space-modeller IFC loading core
(`src/app/domain/services/ifc-loader.service.ts` and the `IfcModel` class of
`src/app/domain/models/ifc-model.model.ts`).

Machine floats of the source are modelled as rationals; the foreign web-ifc
engine and the DOM file object are modelled as oracles that say, for each call
the service makes, whether that call throws and what data it returns.  Each
method of the service becomes a function from the service state and the
oracles to the new state, the list of observable events (progress callbacks,
OpenModel/CloseModel calls) and an `Except` result standing for normal return
versus a thrown error.
-/

namespace SpaceModeller

/-- RGBA color as handed over by the decoder (`placedGeometry.color`); the
channels are not guaranteed to lie in [0,1]. -/
structure Color4 where
  x : ℚ
  y : ℚ
  z : ℚ
  w : ℚ
  deriving DecidableEq

/-- Math.max(0, Math.min(1, v)) as used on each color channel. -/
def clamp01 (v : ℚ) : ℚ := max 0 (min 1 v)

/-- The MeshLambertMaterial parameters that generateGeometry sets from the
clamped color. -/
structure PMaterial where
  r : ℚ
  g : ℚ
  b : ℚ
  transparent : Bool
  opacity : ℚ
  depthWrite : Bool
  deriving DecidableEq

/-- Material construction of generateGeometry: every channel clamped with
clamp01, transparent iff the clamped alpha is below 0.99, opacity is the
clamped alpha, depthWrite iff the clamped alpha is at least 0.99. -/
def materialOf (c : Color4) : PMaterial :=
  { r := clamp01 c.x
    g := clamp01 c.y
    b := clamp01 c.z
    transparent := decide (clamp01 c.w < 99 / 100)
    opacity := clamp01 c.w
    depthWrite := decide (99 / 100 ≤ clamp01 c.w) }

/-- One placed-geometry entry of a flat mesh, together with the behaviour of
the engine calls made for it: `present` is false when `flatMesh.geometries.get`
returns a falsy entry; `getGeometryThrows` means `GetGeometry` itself throws;
`afterAcquireThrows` means some call made after `GetGeometry` succeeded and
before the empty-data check throws (for example `GetVertexData` or
`GetVertexArray`); `verts`/`indices` are the arrays `GetVertexArray` and
`GetIndexArray` return, `none` standing for a null return. -/
structure Placement where
  present : Bool
  getGeometryThrows : Bool
  afterAcquireThrows : Bool
  geometryExpressID : Nat
  verts : Option (List ℚ)
  indices : Option (List Nat)
  color : Color4
  deriving DecidableEq

/-- The check `!verts || !indices || verts.length === 0 || indices.length === 0`
that makes generateGeometry skip a placement. -/
def emptyData (pl : Placement) : Bool :=
  match pl.verts, pl.indices with
  | some vs, some ix => decide (vs.length = 0) || decide (ix.length = 0)
  | _, _ => true

/-- One drawable mesh produced for a placement: provenance tags from the
userData assignments, the vertex count of its position attribute (three floats
per vertex), its material, and flags recording whether its three.js geometry
and material objects have been disposed. -/
structure MeshUnit where
  ifcExpressID : Nat
  geometryExpressID : Nat
  vertCount : Nat
  material : PMaterial
  geometryDisposed : Bool
  materialDisposed : Bool
  deriving DecidableEq

/-- Mesh construction for a placement whose data passed the empty check. -/
def mkMesh (eid : Nat) (pl : Placement) : MeshUnit :=
  { ifcExpressID := eid
    geometryExpressID := pl.geometryExpressID
    vertCount := (pl.verts.getD []).length / 3
    material := materialOf pl.color
    geometryDisposed := false
    materialDisposed := false }

/-- Observable outcome of processing one placement: whether the foreign
geometry object was acquired from GetGeometry, whether geometry.delete() was
called on it, whether the catch block logged a warning, and the mesh pushed
(if any). -/
structure PlacementResult where
  acquired : Bool
  released : Bool
  warned : Bool
  mesh : Option MeshUnit
  deriving DecidableEq

/-- The body of the inner loop of generateGeometry for one placement,
translated branch by branch: a falsy entry is skipped before the try block; a
throw inside the try block is caught, a warning is logged and the loop
continues — the catch block does not call geometry.delete(), so a throw after
acquisition leaves the foreign object unreleased; empty or null arrays release
the geometry and skip; otherwise the mesh is built and the geometry
released. -/
def processPlacement (eid : Nat) (pl : Placement) : PlacementResult :=
  if pl.present = false then
    { acquired := false, released := false, warned := false, mesh := none }
  else if pl.getGeometryThrows then
    { acquired := false, released := false, warned := true, mesh := none }
  else if pl.afterAcquireThrows then
    { acquired := true, released := false, warned := true, mesh := none }
  else if emptyData pl then
    { acquired := true, released := true, warned := false, mesh := none }
  else
    { acquired := true, released := true, warned := false, mesh := some (mkMesh eid pl) }

/-- The inner loop of generateGeometry over the placements of one flat mesh,
carrying the loop index j; returns the meshes pushed and the j indices for
which the catch block logged a warning. -/
def processGeomsAux (eid : Nat) : Nat → List Placement → List MeshUnit × List Nat
  | _, [] => ([], [])
  | j, pl :: rest =>
    let r := processPlacement eid pl
    let rr := processGeomsAux eid (j + 1) rest
    (r.mesh.toList ++ rr.1, if r.warned then j :: rr.2 else rr.2)

/-- One entry of the LoadAllGeometry result: the express id of the flat mesh
and its placed geometries. -/
structure FlatMesh where
  expressID : Nat
  geometries : List Placement
  deriving DecidableEq

/-- The outer loop of generateGeometry, carrying the loop index i; returns all
meshes and the (i, j) index pairs of the logged per-placement warnings. -/
def generateGeometryAux : Nat → List FlatMesh → List MeshUnit × List (Nat × Nat)
  | _, [] => ([], [])
  | i, fm :: rest =>
    let r := processGeomsAux fm.expressID 0 fm.geometries
    let rr := generateGeometryAux (i + 1) rest
    (r.1 ++ rr.1, (r.2.map fun j => (i, j)) ++ rr.2)

/-- generateGeometry over the flat meshes returned by LoadAllGeometry. -/
def generateGeometry (fms : List FlatMesh) : List MeshUnit × List (Nat × Nat) :=
  generateGeometryAux 0 fms

/-- countVertices: sum of the position-attribute counts over the meshes. -/
def countVertices (meshes : List MeshUnit) : Nat :=
  meshes.foldl (fun acc m => acc + m.vertCount) 0

/-- The three private fields of IfcLoaderService: whether ifcApi is non-null,
and the two lifecycle flags. -/
structure LoaderState where
  hasApi : Bool
  isInitialized : Bool
  isInitializing : Bool
  deriving DecidableEq

/-- The error codes of the typed errors the service throws. -/
inductive ErrCode where
  | ifc_load_failed
  | wasm_load_failed
  deriving DecidableEq

/-- The structured context objects attached to the typed errors. -/
inductive ErrCtx where
  | fileCtx (fileName : String) (fileSize : Nat)
  | wasmCtx (wasmPath : String)
  | initCtx (isInitialized : Bool) (hasApi : Bool)
  deriving DecidableEq

/-- An AppError as built by the IfcLoadError / WasmLoadError constructors:
code, message, recoverability flag and context. -/
structure AppError where
  code : ErrCode
  message : String
  recoverable : Bool
  ctx : ErrCtx
  deriving DecidableEq

/-- A thrown value: a typed AppError or a plain JavaScript Error. -/
inductive Thrown where
  | app (e : AppError)
  | plain (message : String)
  deriving DecidableEq

/-- The stage labels of IfcLoadProgress. -/
inductive Stage where
  | reading
  | parsing
  | geometry
  | rendering
  | complete
  deriving DecidableEq

/-- One progress event handed to the onProgress callback. -/
structure ProgressEvent where
  percent : Nat
  message : String
  stage : Stage
  deriving DecidableEq

/-- The observable events of one loadIfcFile call: progress callbacks and the
OpenModel / CloseModel calls on the engine. -/
inductive LoadEvent where
  | progress (p : ProgressEvent)
  | openModel
  | closeModel
  deriving DecidableEq

/-- The metadata fields of an IfcModel that the embedding tracks (the id,
timestamp and bounding box of the source are environment-dependent and not
needed by any claim). -/
structure IfcModelMetadata where
  fileName : String
  fileSize : Nat
  meshCount : Nat
  vertexCount : Nat
  deriving DecidableEq

/-- The IfcModel class: the mesh content of its modelGroup, the group name,
the metadata record, the retained raw bytes and the disposed flag. -/
structure IfcModel where
  meshesF : List MeshUnit
  groupName : String
  metaF : IfcModelMetadata
  rawF : List Nat
  disposed : Bool
  deriving DecidableEq

/-- IfcModel.dispose: an early return when already disposed; otherwise the
traverse that disposes every mesh geometry and material, then clear() and
setting the disposed flag.  The second component lists the meshes whose
resources were freed by this call, each with its disposal flags set. -/
def IfcModel.dispose (m : IfcModel) : IfcModel × List MeshUnit :=
  if m.disposed then (m, [])
  else
    ({ m with meshesF := [], disposed := true },
     m.meshesF.map fun u => { u with geometryDisposed := true, materialDisposed := true })

/-- The modelGroup getter, guarded by ensureNotDisposed. -/
def IfcModel.modelGroup (m : IfcModel) : Except Thrown (List MeshUnit) :=
  if m.disposed then .error (.plain "Cannot access disposed IFC model")
  else .ok m.meshesF

/-- The rawData getter, guarded by ensureNotDisposed. -/
def IfcModel.rawData (m : IfcModel) : Except Thrown (List Nat) :=
  if m.disposed then .error (.plain "Cannot access disposed IFC model")
  else .ok m.rawF

/-- The metadata getter: not guarded, readable also after dispose. -/
def IfcModel.metadata (m : IfcModel) : IfcModelMetadata := m.metaF

/-- The file argument of loadIfcFile: name, size, content bytes, and whether
file.arrayBuffer() rejects. -/
structure FileInput where
  name : String
  size : Nat
  bytes : List Nat
  arrayBufferThrows : Bool
  deriving DecidableEq

/-- Behaviour of the engine during one load: whether OpenModel throws, whether
LoadAllGeometry throws, and the flat meshes it returns otherwise. -/
structure Engine where
  openModelThrows : Bool
  loadAllGeometryThrows : Bool
  flatMeshes : List FlatMesh
  deriving DecidableEq

/-- The IfcLoadError built by the catch block of loadIfcFile: recoverable,
message naming the file, context carrying file name and size. -/
def loadFailure (file : FileInput) : Thrown :=
  .app { code := .ifc_load_failed
         message := "Failed to load IFC file: " ++ file.name
         recoverable := true
         ctx := .fileCtx file.name file.size }

/-- The IfcLoadError thrown by ensureInitialized, with its context recording
the two checked fields. -/
def notInitializedFailure (st : LoaderState) : Thrown :=
  .app { code := .ifc_load_failed
         message := "IFC Loader not initialized"
         recoverable := true
         ctx := .initCtx st.isInitialized st.hasApi }

/-- loadIfcFile, translated step by step: the ensureInitialized guard runs
before the try block (its error propagates unwrapped and before any progress
event); inside the try block the five progress checkpoints, the OpenModel and
CloseModel calls and the geometry generation happen in source order; any throw
inside the try block is caught and rewrapped as the IfcLoadError of
`loadFailure` — the catch block performs no CloseModel call.  Returns the
service state after the call, the event list and the result. -/
def loadIfcFile (st : LoaderState) (file : FileInput) (eng : Engine) :
    LoaderState × List LoadEvent × Except Thrown IfcModel :=
  if !st.isInitialized || !st.hasApi then
    (st, [], .error (notInitializedFailure st))
  else
    let e1 : List LoadEvent :=
      [.progress { percent := 10, message := "Reading file...", stage := .reading }]
    if file.arrayBufferThrows then
      (st, e1, .error (loadFailure file))
    else
      let e2 := e1 ++
        [.progress { percent := 30, message := "Opening IFC model...", stage := .parsing }]
      if eng.openModelThrows then
        (st, e2, .error (loadFailure file))
      else
        let e3 := e2 ++ [.openModel,
          .progress { percent := 50, message := "Generating geometry...", stage := .geometry }]
        if eng.loadAllGeometryThrows then
          (st, e3, .error (loadFailure file))
        else
          let gg := generateGeometry eng.flatMeshes
          let e4 := e3 ++
            [.progress { percent := 90, message := "Finalizing...", stage := .rendering }]
          let md : IfcModelMetadata :=
            { fileName := file.name
              fileSize := file.size
              meshCount := gg.1.length
              vertexCount := countVertices gg.1 }
          let e5 := e4 ++ [.closeModel,
            .progress { percent := 100, message := "Complete", stage := .complete }]
          (st, e5, .ok { meshesF := gg.1, groupName := file.name, metaF := md,
                         rawF := file.bytes, disposed := false })

/-- The initialize method of the service, named setupLoader here.  The
re-entrancy guard throws a plain Error; the idempotence guard returns without
touching the engine; otherwise the engine bootstrap is attempted (recorded as
the wasm path in the middle component): on failure the catch block nulls
ifcApi and throws a WasmLoadError carrying the wasm path, and the finally
block clears isInitializing; on success the state becomes initialized. -/
def setupLoader (st : LoaderState) (wasmPath : String) (initFails : Bool) :
    LoaderState × List String × Except Thrown Unit :=
  if st.isInitializing then
    (st, [], .error (.plain "IFC Loader initialization already in progress"))
  else if st.isInitialized then
    (st, [], .ok ())
  else if initFails then
    ({ hasApi := false, isInitialized := false, isInitializing := false }, [wasmPath],
     .error (.app { code := .wasm_load_failed
                    message := "Failed to initialize web-ifc WASM module"
                    recoverable := false
                    ctx := .wasmCtx wasmPath }))
  else
    ({ hasApi := true, isInitialized := true, isInitializing := false }, [wasmPath], .ok ())

/-- The progress events of an event list, in order. -/
def progressOf (evs : List LoadEvent) : List ProgressEvent :=
  evs.filterMap fun e =>
    match e with
    | .progress p => some p
    | _ => none

/-- A placement that converts to a mesh: present, no engine call throws for
it, and its arrays pass the empty check. -/
def validPlacement (pl : Placement) : Bool :=
  pl.present && !pl.getGeometryThrows && !pl.afterAcquireThrows && !(emptyData pl)

/-- A placement for which some engine call inside the try block throws. -/
def throwingPlacement (pl : Placement) : Bool :=
  pl.present && (pl.getGeometryThrows || pl.afterAcquireThrows)

theorem processPlacement_valid (eid : Nat) (pl : Placement)
    (h : validPlacement pl = true) :
    processPlacement eid pl =
      { acquired := true, released := true, warned := false,
        mesh := some (mkMesh eid pl) } := by
  simp only [validPlacement, Bool.and_eq_true, Bool.not_eq_eq_eq_not, Bool.not_true] at h
  obtain ⟨⟨⟨hp, hg⟩, ha⟩, he⟩ := h
  simp [processPlacement, hp, hg, ha, he]

theorem processPlacement_throwing (eid : Nat) (pl : Placement)
    (h : throwingPlacement pl = true) :
    (processPlacement eid pl).mesh = none ∧ (processPlacement eid pl).warned = true := by
  simp only [throwingPlacement, Bool.and_eq_true, Bool.or_eq_true] at h
  obtain ⟨hp, h2⟩ := h
  rcases h2 with hg | ha
  · simp [processPlacement, hp, hg]
  · rcases hgg : pl.getGeometryThrows <;> simp [processPlacement, hp, hgg, ha]

theorem processGeomsAux_all_valid (eid : Nat) (l : List Placement)
    (h : ∀ pl ∈ l, validPlacement pl = true) :
    ∀ j, (processGeomsAux eid j l).1.length = l.length ∧ (processGeomsAux eid j l).2 = [] := by
  induction l with
  | nil => intro j; simp [processGeomsAux]
  | cons pl rest ih =>
    intro j
    have hpl := processPlacement_valid eid pl (h pl (by simp))
    have hr := ih (fun q hq => h q (List.mem_cons_of_mem _ hq)) (j + 1)
    simp [processGeomsAux, hpl, hr.1, hr.2]

theorem processGeomsAux_one_throw (eid : Nat) (l : List Placement) :
    ∀ (j k : Nat) (hk : k < l.length),
      throwingPlacement (l.get ⟨k, hk⟩) = true →
      (∀ i (hi : i < l.length), i ≠ k → validPlacement (l.get ⟨i, hi⟩) = true) →
      (processGeomsAux eid j l).1.length = l.length - 1 ∧
      (processGeomsAux eid j l).2 = [j + k] := by
  induction l with
  | nil => intro j k hk; exact absurd hk (by simp)
  | cons pl rest ih =>
    intro j k hk ht hv
    cases k with
    | zero =>
      have hthrow := processPlacement_throwing eid pl (by simpa using ht)
      have hrest : ∀ q ∈ rest, validPlacement q = true := by
        intro q hq
        obtain ⟨⟨i, hi⟩, rfl⟩ := List.mem_iff_get.mp hq
        have h2 := hv (i + 1) (Nat.succ_lt_succ hi) (Nat.succ_ne_zero i)
        simpa using h2
      have hr := processGeomsAux_all_valid eid rest hrest (j + 1)
      simp [processGeomsAux, hthrow.1, hthrow.2, hr.1, hr.2]
    | succ k2 =>
      have hk2 : k2 < rest.length := Nat.lt_of_succ_lt_succ hk
      have hpl : validPlacement pl = true := by
        simpa using hv 0 (Nat.succ_pos _) (by omega)
      have hvp := processPlacement_valid eid pl hpl
      have hrest : ∀ i (hi : i < rest.length), i ≠ k2 →
          validPlacement (rest.get ⟨i, hi⟩) = true := by
        intro i hi hik
        have h2 := hv (i + 1) (Nat.succ_lt_succ hi) (by omega)
        simpa using h2
      have hrt : throwingPlacement (rest.get ⟨k2, hk2⟩) = true := by simpa using ht
      have hr := ih (j + 1) k2 hk2 hrt hrest
      constructor
      · simp only [processGeomsAux, hvp]
        simp [hr.1]
        omega
      · simp only [processGeomsAux, hvp]
        simp [hr.2]
        omega

theorem loadIfcFile_success (st : LoaderState) (file : FileInput) (eng : Engine)
    (hst : st.isInitialized = true) (hapi : st.hasApi = true)
    (hf : file.arrayBufferThrows = false) (ho : eng.openModelThrows = false)
    (hg : eng.loadAllGeometryThrows = false) :
    (loadIfcFile st file eng).2.2 =
      .ok { meshesF := (generateGeometry eng.flatMeshes).1
            groupName := file.name
            metaF := { fileName := file.name
                       fileSize := file.size
                       meshCount := (generateGeometry eng.flatMeshes).1.length
                       vertexCount := countVertices (generateGeometry eng.flatMeshes).1 }
            rawF := file.bytes
            disposed := false } := by
  simp [loadIfcFile, hst, hapi, hf, ho, hg]

/-- An initialized, idle loader state. -/
def readyState : LoaderState :=
  { hasApi := true, isInitialized := true, isInitializing := false }

/-- A small concrete file input. -/
def sampleFile : FileInput :=
  { name := "sample.ifc", size := 4, bytes := [1, 2, 3, 4], arrayBufferThrows := false }

/-- An engine run in which OpenModel succeeds and the next pipeline step,
LoadAllGeometry, throws. -/
def geometryFailEngine : Engine :=
  { openModelThrows := false, loadAllGeometryThrows := true, flatMeshes := [] }

/-- C1: on a load in which OpenModel succeeds and a later pipeline step
(LoadAllGeometry) throws, the event trace of loadIfcFile contains the
OpenModel call but no CloseModel call, and the load error still propagates to
the caller: cleanup does NOT run on this exit path, refuting the claim — the
catch block of loadIfcFile rethrows without closing the opened model. -/
theorem closeModel_not_called_on_pipeline_failure :
    LoadEvent.openModel ∈ (loadIfcFile readyState sampleFile geometryFailEngine).2.1 ∧
    LoadEvent.closeModel ∉ (loadIfcFile readyState sampleFile geometryFailEngine).2.1 ∧
    (loadIfcFile readyState sampleFile geometryFailEngine).2.2 =
      .error (.app { code := .ifc_load_failed
                     message := "Failed to load IFC file: sample.ifc"
                     recoverable := true
                     ctx := .fileCtx "sample.ifc" 4 }) :=
  ⟨by decide, by decide, rfl⟩

/-- A placement for which GetGeometry succeeds and a later call inside the
try block throws. -/
def throwAfterAcquirePlacement : Placement :=
  { present := true, getGeometryThrows := false, afterAcquireThrows := true
    geometryExpressID := 7
    verts := some [0, 0, 0, 1, 0, 0, 0, 1, 0]
    indices := some [0, 1, 2]
    color := { x := 1, y := 0, z := 0, w := 1 } }

/-- C2: when an exception is thrown after the foreign geometry object was
acquired, the catch block of generateGeometry continues without calling
geometry.delete(): the object is acquired but never released on that exit
path, refuting the claim that the release happens on every exit path. -/
theorem geometry_not_released_on_exception :
    (processPlacement 3 throwAfterAcquirePlacement).acquired = true ∧
    (processPlacement 3 throwAfterAcquirePlacement).released = false ∧
    (processPlacement 3 throwAfterAcquirePlacement).warned = true ∧
    (processPlacement 3 throwAfterAcquirePlacement).mesh = none := by
  decide

/-- C4: the initialize method is single-flight and idempotent after success —
a call while one is in flight is rejected with the plain
already-in-progress error and changes nothing; a call after success returns
without re-running the bootstrap (no wasm location is attempted); a failed
bootstrap leaves the binding uninitialized (no api, not initialized) and
surfaces the non-recoverable WasmLoadError carrying the attempted wasm
location. -/
theorem setup_idempotent_single_flight (st : LoaderState) (p : String) (f : Bool) :
    (st.isInitializing = true →
      setupLoader st p f =
        (st, [], .error (.plain "IFC Loader initialization already in progress"))) ∧
    (st.isInitializing = false → st.isInitialized = true →
      setupLoader st p f = (st, [], .ok ())) ∧
    (st.isInitializing = false → st.isInitialized = false → f = true →
      setupLoader st p f =
        ({ hasApi := false, isInitialized := false, isInitializing := false }, [p],
         .error (.app { code := .wasm_load_failed
                        message := "Failed to initialize web-ifc WASM module"
                        recoverable := false
                        ctx := .wasmCtx p }))) := by
  refine ⟨fun h1 => ?_, fun h1 h2 => ?_, fun h1 h2 h3 => ?_⟩ <;>
    simp [setupLoader, h1, *]

/-- Witness for C4 at concrete states: an in-flight state rejects, an
initialized state is a no-op, and a failing bootstrap from the uninitialized
state leaves it uninitialized with the typed setup error. -/
theorem setup_idempotent_single_flight_witness :
    (setupLoader { hasApi := false, isInitialized := false, isInitializing := true }
        "wasm/" false =
      ({ hasApi := false, isInitialized := false, isInitializing := true }, [],
       .error (.plain "IFC Loader initialization already in progress"))) ∧
    (setupLoader { hasApi := true, isInitialized := true, isInitializing := false }
        "wasm/" false =
      ({ hasApi := true, isInitialized := true, isInitializing := false }, [], .ok ())) ∧
    (setupLoader { hasApi := false, isInitialized := false, isInitializing := false }
        "wasm/" true =
      ({ hasApi := false, isInitialized := false, isInitializing := false }, ["wasm/"],
       .error (.app { code := .wasm_load_failed
                      message := "Failed to initialize web-ifc WASM module"
                      recoverable := false
                      ctx := .wasmCtx "wasm/" }))) :=
  ⟨(setup_idempotent_single_flight
      { hasApi := false, isInitialized := false, isInitializing := true } "wasm/" false).1 rfl,
   (setup_idempotent_single_flight
      { hasApi := true, isInitialized := true, isInitializing := false } "wasm/" false).2.1
      rfl rfl,
   (setup_idempotent_single_flight
      { hasApi := false, isInitialized := false, isInitializing := false } "wasm/" true).2.2
      rfl rfl rfl⟩

/-- C9: a load attempted while the loader is not initialized (in particular
while a setup is still in flight, when isInitialized is still false) returns
the typed not-initialized load error and invokes no progress callback at all:
the ensureInitialized guard runs before the first progress event. -/
theorem load_precondition_no_progress (st : LoaderState) (file : FileInput) (eng : Engine)
    (h : st.isInitialized = false ∨ st.hasApi = false) :
    loadIfcFile st file eng =
      (st, [],
       .error (.app { code := .ifc_load_failed
                      message := "IFC Loader not initialized"
                      recoverable := true
                      ctx := .initCtx st.isInitialized st.hasApi })) := by
  rcases h with h | h <;> simp [loadIfcFile, notInitializedFailure, h]

/-- Witness for C9: an uninitialized loader rejects a load with the typed
error and an empty event trace. -/
theorem load_precondition_no_progress_witness :
    loadIfcFile { hasApi := false, isInitialized := false, isInitializing := true }
        sampleFile geometryFailEngine =
      ({ hasApi := false, isInitialized := false, isInitializing := true }, [],
       .error (.app { code := .ifc_load_failed
                      message := "IFC Loader not initialized"
                      recoverable := true
                      ctx := .initCtx false false })) :=
  load_precondition_no_progress
    { hasApi := false, isInitialized := false, isInitializing := true }
    sampleFile geometryFailEngine (Or.inl rfl)

/-- C10: loadIfcFile never changes the loader fields — the state component of
its result equals the input state on every path, success or failure, so a
failed load leaves the loader initialized and usable. -/
theorem load_preserves_loader_state (st : LoaderState) (file : FileInput) (eng : Engine) :
    (loadIfcFile st file eng).1 = st := by
  rcases hi : st.isInitialized <;> rcases ha : st.hasApi <;>
    rcases hf : file.arrayBufferThrows <;> rcases ho : eng.openModelThrows <;>
      rcases hg : eng.loadAllGeometryThrows <;>
        simp [loadIfcFile, hi, ha, hf, ho, hg]

/-- C3: for a model whose flat mesh has N placements of which exactly the one
at position k throws during conversion and the rest are valid, the exception
is caught and logged with the placement index: generateGeometry yields exactly
N-1 meshes and exactly the one warning (0, k), and a load over this model
still completes successfully with meshCount = N-1. -/
theorem single_placement_failure_isolation
    (st : LoaderState) (file : FileInput) (eid : Nat) (geoms : List Placement) (k : Nat)
    (hst : st.isInitialized = true) (hapi : st.hasApi = true)
    (hfile : file.arrayBufferThrows = false)
    (hk : k < geoms.length)
    (ht : throwingPlacement (geoms.get ⟨k, hk⟩) = true)
    (hv : ∀ i (hi : i < geoms.length), i ≠ k → validPlacement (geoms.get ⟨i, hi⟩) = true) :
    (generateGeometry [{ expressID := eid, geometries := geoms }]).1.length =
        geoms.length - 1 ∧
    (generateGeometry [{ expressID := eid, geometries := geoms }]).2 = [(0, k)] ∧
    ∃ m, (loadIfcFile st file
            { openModelThrows := false, loadAllGeometryThrows := false
              flatMeshes := [{ expressID := eid, geometries := geoms }] }).2.2 = .ok m ∧
         m.metadata.meshCount = geoms.length - 1 := by
  have hg := processGeomsAux_one_throw eid geoms 0 k hk ht hv
  have h1 : (generateGeometry [{ expressID := eid, geometries := geoms }]).1.length =
      geoms.length - 1 := by
    simp [generateGeometry, generateGeometryAux, hg.1]
  have h2 : (generateGeometry [{ expressID := eid, geometries := geoms }]).2 = [(0, k)] := by
    simp [generateGeometry, generateGeometryAux, hg.2]
  exact ⟨h1, h2, _,
    loadIfcFile_success st file _ hst hapi hfile rfl rfl,
    by simpa [IfcModel.metadata] using h1⟩

/-- A placement that converts normally (opaque white). -/
def okPlacementA : Placement :=
  { present := true, getGeometryThrows := false, afterAcquireThrows := false
    geometryExpressID := 11
    verts := some [0, 0, 0, 1, 0, 0, 0, 1, 0]
    indices := some [0, 1, 2]
    color := { x := 1, y := 1, z := 1, w := 1 } }

/-- A placement for which GetGeometry throws. -/
def throwPlacementB : Placement :=
  { present := true, getGeometryThrows := true, afterAcquireThrows := false
    geometryExpressID := 12
    verts := some [0, 0, 0, 1, 0, 0, 0, 1, 0]
    indices := some [0, 1, 2]
    color := { x := 0, y := 1, z := 0, w := 1 } }

/-- A placement that converts normally (translucent blue). -/
def okPlacementC : Placement :=
  { present := true, getGeometryThrows := false, afterAcquireThrows := false
    geometryExpressID := 13
    verts := some [0, 0, 0, 1, 0, 0, 0, 1, 0]
    indices := some [0, 1, 2]
    color := { x := 0, y := 0, z := 1, w := 3 / 10 } }

/-- Witness for C3: three placements of which the middle one throws give two
meshes, one logged warning at index (0, 1), and a successful load with
meshCount 2. -/
theorem single_placement_failure_isolation_witness :
    (generateGeometry [{ expressID := 5
                         geometries := [okPlacementA, throwPlacementB, okPlacementC] }]).1.length
      = 2 ∧
    (generateGeometry [{ expressID := 5
                         geometries := [okPlacementA, throwPlacementB, okPlacementC] }]).2
      = [(0, 1)] ∧
    ∃ m, (loadIfcFile readyState sampleFile
            { openModelThrows := false, loadAllGeometryThrows := false
              flatMeshes := [{ expressID := 5
                               geometries :=
                                 [okPlacementA, throwPlacementB, okPlacementC] }] }).2.2
          = .ok m ∧
         m.metadata.meshCount = 2 :=
  single_placement_failure_isolation readyState sampleFile 5
    [okPlacementA, throwPlacementB, okPlacementC] 1 rfl rfl rfl (by decide) (by decide)
    (by decide)

/-- C5: IfcModel.dispose is idempotent — disposing an already-disposed model
returns it unchanged and frees nothing — and after dispose the modelGroup and
rawData getters throw the disposed-access error while metadata stays readable;
the first dispose of a live model frees geometry and material of every mesh,
clears the container and sets the disposed flag. -/
theorem model_dispose_idempotent_guard (m : IfcModel) :
    m.dispose.1.dispose = (m.dispose.1, []) ∧
    m.dispose.1.disposed = true ∧
    (m.disposed = false →
      m.dispose.2 =
        m.meshesF.map
          (fun u => { u with geometryDisposed := true, materialDisposed := true }) ∧
      m.dispose.1.meshesF = []) ∧
    m.dispose.1.modelGroup = .error (.plain "Cannot access disposed IFC model") ∧
    m.dispose.1.rawData = .error (.plain "Cannot access disposed IFC model") ∧
    m.dispose.1.metadata = m.metadata := by
  by_cases hd : m.disposed <;>
    simp [IfcModel.dispose, IfcModel.modelGroup, IfcModel.rawData, IfcModel.metadata, hd]

/-- A concrete converted mesh for the dispose witness. -/
def sampleMesh : MeshUnit :=
  { ifcExpressID := 1, geometryExpressID := 2, vertCount := 3
    material := materialOf { x := 1, y := 0, z := 0, w := 1 }
    geometryDisposed := false, materialDisposed := false }

/-- A concrete live model for the dispose witness. -/
def sampleModel : IfcModel :=
  { meshesF := [sampleMesh]
    groupName := "sample.ifc"
    metaF := { fileName := "sample.ifc", fileSize := 4, meshCount := 1, vertexCount := 3 }
    rawF := [1, 2, 3, 4]
    disposed := false }

/-- Witness for C5 on a concrete live model: the first dispose frees the mesh
resources and clears the container, and a second dispose is a no-op. -/
theorem model_dispose_idempotent_guard_witness :
    sampleModel.dispose.2 =
      sampleModel.meshesF.map
        (fun u => { u with geometryDisposed := true, materialDisposed := true }) ∧
    sampleModel.dispose.1.meshesF = [] ∧
    sampleModel.dispose.1.dispose = (sampleModel.dispose.1, []) ∧
    sampleModel.dispose.1.metadata = sampleModel.metadata :=
  ⟨((model_dispose_idempotent_guard sampleModel).2.2.1 rfl).1,
   ((model_dispose_idempotent_guard sampleModel).2.2.1 rfl).2,
   (model_dispose_idempotent_guard sampleModel).1,
   (model_dispose_idempotent_guard sampleModel).2.2.2.2.2⟩

/-- C6: a placement whose vertex or index array is absent or zero-length
produces no mesh and no warning: its foreign geometry is released and the
loop simply continues with the next placement. -/
theorem empty_part_skipped (eid j : Nat) (pl : Placement) (rest : List Placement)
    (hp : pl.present = true) (hg : pl.getGeometryThrows = false)
    (ha : pl.afterAcquireThrows = false) (he : emptyData pl = true) :
    processPlacement eid pl =
      { acquired := true, released := true, warned := false, mesh := none } ∧
    processGeomsAux eid j (pl :: rest) = processGeomsAux eid (j + 1) rest := by
  have h1 : processPlacement eid pl =
      { acquired := true, released := true, warned := false, mesh := none } := by
    simp [processPlacement, hp, hg, ha, he]
  exact ⟨h1, by simp [processGeomsAux, h1]⟩

/-- A placement with a zero-length vertex array. -/
def emptyPlacement : Placement :=
  { present := true, getGeometryThrows := false, afterAcquireThrows := false
    geometryExpressID := 9
    verts := some []
    indices := some [0, 1, 2]
    color := { x := 1, y := 1, z := 1, w := 1 } }

/-- Witness for C6: the empty placement is skipped after release, and
processing of the remaining placements is unaffected. -/
theorem empty_part_skipped_witness :
    processPlacement 2 emptyPlacement =
      { acquired := true, released := true, warned := false, mesh := none } ∧
    processGeomsAux 2 0 (emptyPlacement :: [okPlacementA]) =
      processGeomsAux 2 1 [okPlacementA] :=
  empty_part_skipped 2 0 emptyPlacement [okPlacementA] rfl rfl rfl rfl

/-- C7: every mesh produced for a valid placement carries the material
derived from the raw RGBA color: every channel clamped into [0,1], opacity
equal to the clamped alpha, transparent exactly when the clamped alpha is
below 0.99, and depthWrite exactly when it is at least 0.99 — so depthWrite is
always the negation of transparent. -/
theorem material_derivation (eid : Nat) (pl : Placement)
    (hv : validPlacement pl = true) :
    ∃ u, (processPlacement eid pl).mesh = some u ∧
      u.material = materialOf pl.color ∧
      0 ≤ u.material.r ∧ u.material.r ≤ 1 ∧
      0 ≤ u.material.g ∧ u.material.g ≤ 1 ∧
      0 ≤ u.material.b ∧ u.material.b ≤ 1 ∧
      u.material.opacity = clamp01 pl.color.w ∧
      (u.material.transparent = true ↔ clamp01 pl.color.w < 99 / 100) ∧
      (u.material.depthWrite = true ↔ 99 / 100 ≤ clamp01 pl.color.w) ∧
      u.material.depthWrite = !u.material.transparent := by
  have hb : ∀ v : ℚ, 0 ≤ clamp01 v ∧ clamp01 v ≤ 1 := fun v =>
    ⟨le_max_left 0 _, max_le (by norm_num) (min_le_left 1 v)⟩
  refine ⟨mkMesh eid pl, by rw [processPlacement_valid eid pl hv], rfl,
    (hb _).1, (hb _).2, (hb _).1, (hb _).2, (hb _).1, (hb _).2, rfl, ?_, ?_, ?_⟩
  · simp [mkMesh, materialOf]
  · simp [mkMesh, materialOf]
  · simp only [mkMesh, materialOf]
    rw [← decide_not]
    exact decide_eq_decide.mpr not_lt.symm

/-- A valid placement with out-of-range color channels and alpha 1. -/
def opaquePlacement : Placement :=
  { present := true, getGeometryThrows := false, afterAcquireThrows := false
    geometryExpressID := 21
    verts := some [0, 0, 0, 1, 0, 0, 0, 1, 0]
    indices := some [0, 1, 2]
    color := { x := -1 / 5, y := 3 / 2, z := 1 / 2, w := 1 } }

/-- Witness for C7 at the boundary values of the claim: the theorem applied to
a concrete valid placement, together with the concrete derivations for alpha
1.0 (opaque, depth-writing), alpha 0.5 (transparent, no depth write) and
alpha 0.995 (still opaque: the boundary sits at 0.99), and the clamping of the
out-of-range channels -0.2 and 1.5. -/
theorem material_derivation_witness :
    (∃ u, (processPlacement 1 opaquePlacement).mesh = some u ∧
      u.material = materialOf opaquePlacement.color ∧
      0 ≤ u.material.r ∧ u.material.r ≤ 1 ∧
      0 ≤ u.material.g ∧ u.material.g ≤ 1 ∧
      0 ≤ u.material.b ∧ u.material.b ≤ 1 ∧
      u.material.opacity = clamp01 opaquePlacement.color.w ∧
      (u.material.transparent = true ↔ clamp01 opaquePlacement.color.w < 99 / 100) ∧
      (u.material.depthWrite = true ↔ 99 / 100 ≤ clamp01 opaquePlacement.color.w) ∧
      u.material.depthWrite = !u.material.transparent) ∧
    (materialOf { x := 1, y := 1, z := 1, w := 1 }).transparent = false ∧
    (materialOf { x := 1, y := 1, z := 1, w := 1 }).depthWrite = true ∧
    (materialOf { x := 1, y := 1, z := 1, w := 1 / 2 }).transparent = true ∧
    (materialOf { x := 1, y := 1, z := 1, w := 1 / 2 }).depthWrite = false ∧
    (materialOf { x := 1, y := 1, z := 1, w := 199 / 200 }).transparent = false ∧
    (materialOf { x := -1 / 5, y := 3 / 2, z := 1 / 2, w := 1 }).r = 0 ∧
    (materialOf { x := -1 / 5, y := 3 / 2, z := 1 / 2, w := 1 }).g = 1 :=
  ⟨material_derivation 1 opaquePlacement (by decide),
   by norm_num [materialOf, clamp01, min_def, max_def],
   by norm_num [materialOf, clamp01, min_def, max_def],
   by norm_num [materialOf, clamp01, min_def, max_def],
   by norm_num [materialOf, clamp01, min_def, max_def],
   by norm_num [materialOf, clamp01, min_def, max_def],
   by norm_num [materialOf, clamp01, min_def, max_def],
   by norm_num [materialOf, clamp01, min_def, max_def]⟩

/-- C8: a successful load invokes the progress sink exactly at the five fixed
checkpoints 10, 30, 50, 90, 100, in this (strictly increasing) order, each
with its matching stage label and message, and at no other percentage. -/
theorem progress_checkpoints (st : LoaderState) (file : FileInput) (eng : Engine)
    (hst : st.isInitialized = true) (hapi : st.hasApi = true)
    (hf : file.arrayBufferThrows = false) (ho : eng.openModelThrows = false)
    (hg : eng.loadAllGeometryThrows = false) :
    progressOf (loadIfcFile st file eng).2.1 =
      [{ percent := 10, message := "Reading file...", stage := .reading },
       { percent := 30, message := "Opening IFC model...", stage := .parsing },
       { percent := 50, message := "Generating geometry...", stage := .geometry },
       { percent := 90, message := "Finalizing...", stage := .rendering },
       { percent := 100, message := "Complete", stage := .complete }] ∧
    ∃ m, (loadIfcFile st file eng).2.2 = .ok m := by
  refine ⟨?_, _, loadIfcFile_success st file eng hst hapi hf ho hg⟩
  simp [loadIfcFile, hst, hapi, hf, ho, hg, progressOf]

/-- An engine run that succeeds and returns no geometry. -/
def quietEngine : Engine :=
  { openModelThrows := false, loadAllGeometryThrows := false, flatMeshes := [] }

/-- Witness for C8 on a concrete successful load. -/
theorem progress_checkpoints_witness :
    progressOf (loadIfcFile readyState sampleFile quietEngine).2.1 =
      [{ percent := 10, message := "Reading file...", stage := .reading },
       { percent := 30, message := "Opening IFC model...", stage := .parsing },
       { percent := 50, message := "Generating geometry...", stage := .geometry },
       { percent := 90, message := "Finalizing...", stage := .rendering },
       { percent := 100, message := "Complete", stage := .complete }] ∧
    ∃ m, (loadIfcFile readyState sampleFile quietEngine).2.2 = .ok m :=
  progress_checkpoints readyState sampleFile quietEngine rfl rfl rfl rfl rfl

end SpaceModeller
